import Mathlib

/-!
Verification of the style-file serialization and change-tracking subsystem of
rguistyler (src/src/rguistyler.c, active version: lines 1-1784).

The embedding models the raygui style property store (the external collaborator
read through GuiGetStyle) and the module-global baseline `styleBackup` as a
state record, and translates the serialization functions `SaveStyle`,
`ExportStyleAsCode` and `StyleChangesCounter` into pure Lean functions over
that state.  Machine integers are modelled as `Nat`; the styled values are
32-bit and only ever compared for equality or written out little-endian.
-/

namespace RGuiStyler

/-- Number of gui controls.  Fixed by the collaborator constant
`RAYGUI_MAX_CONTROLS` of the vendored raygui.h; in src it is pinned by the
array `guiControlText[RAYGUI_MAX_CONTROLS]` (rguistyler.c lines 123-140),
whose initializer has exactly 16 entries. -/
def RAYGUI_MAX_CONTROLS : Nat := 16

/-- Number of base (per-control) style properties.  Pinned in src by
`guiPropsText[RAYGUI_MAX_PROPS_BASE]` (lines 144-161), 16 entries. -/
def RAYGUI_MAX_PROPS_BASE : Nat := 16

/-- Number of extended style properties.  Pinned in src by
`guiPropsExText[RAYGUI_MAX_PROPS_EXTENDED]` (lines 1382-1391), 8 entries. -/
def RAYGUI_MAX_PROPS_EXTENDED : Nat := 8

/-- Total number of property slots per control,
`RAYGUI_MAX_PROPS_BASE + RAYGUI_MAX_PROPS_EXTENDED` as used throughout
SaveStyle / ExportStyleAsCode / StyleChangesCounter. -/
def propsTotal : Nat := RAYGUI_MAX_PROPS_BASE + RAYGUI_MAX_PROPS_EXTENDED

/-- Style file type to export (rguistyler.c lines 107-112, enum
GuiStyleFileType). -/
def STYLE_BINARY : Nat := 0

/-- GuiStyleFileType.STYLE_AS_CODE = 1 (lines 107-112). -/
def STYLE_AS_CODE : Nat := 1

/-- GuiStyleFileType.STYLE_TABLE_IMAGE = 2 (lines 107-112). -/
def STYLE_TABLE_IMAGE : Nat := 2

/-- GuiStyleFileType.STYLE_TEXT = 3 (lines 107-112). -/
def STYLE_TEXT : Nat := 3

/-- Controls name table, `guiControlText` (rguistyler.c lines 123-140). -/
def guiControlText : List String :=
  ["DEFAULT", "LABEL", "BUTTON", "TOGGLE", "SLIDER", "PROGRESSBAR",
   "CHECKBOX", "COMBOBOX", "DROPDOWNBOX", "TEXTBOX", "VALUEBOX", "SPINNER",
   "LISTVIEW", "COLORPICKER", "SCROLLBAR", "STATUSBAR"]

/-- Controls properties name table, `guiPropsText` (lines 144-161). -/
def guiPropsText : List String :=
  ["BORDER_COLOR_NORMAL", "BASE_COLOR_NORMAL", "TEXT_COLOR_NORMAL",
   "BORDER_COLOR_FOCUSED", "BASE_COLOR_FOCUSED", "TEXT_COLOR_FOCUSED",
   "BORDER_COLOR_PRESSED", "BASE_COLOR_PRESSED", "TEXT_COLOR_PRESSED",
   "BORDER_COLOR_DISABLED", "BASE_COLOR_DISABLED", "TEXT_COLOR_DISABLED",
   "BORDER_WIDTH", "TEXT_PADDING", "TEXT_ALIGNMENT", "RESERVED"]

/-- DEFAULT extended properties name table, `guiPropsExText`, local to
ExportStyleAsCode (lines 1382-1391). -/
def guiPropsExText : List String :=
  ["TEXT_SIZE", "TEXT_SPACING", "LINE_COLOR", "BACKGROUND_COLOR",
   "EXTENDED01", "EXTENDED02", "EXTENDED03", "EXTENDED04"]

/-- Modelled from the spec: the first two extended property slots of the
DEFAULT control are TEXT_SIZE and TEXT_SPACING (spec section 3 lists the
DEFAULT-only extended properties; the index constants live in the vendored
raygui.h, absent from src/).  Only used in header comments of the text codec
and never in any diff decision. -/
def TEXT_SIZE : Nat := RAYGUI_MAX_PROPS_BASE

/-- Modelled from the spec: TEXT_SPACING is the second DEFAULT extended
property slot (see `TEXT_SIZE`). -/
def TEXT_SPACING : Nat := RAYGUI_MAX_PROPS_BASE + 1

/-- State read by the serialization subsystem: the style property store
(collaborator accessor `GuiGetStyle`), the module-global baseline snapshot
`styleBackup` (line 186, flat array indexed i*propsTotal+j), the
`customFontLoaded` flag (line 190) and the base name of the font file
(`GetFileName(fontFilePath)`, an external path helper, line 1342). -/
structure RgsState where
  guiGetStyle : Nat → Nat → Nat
  styleBackup : Nat → Nat
  customFontLoaded : Bool
  fontFileName : String

/-- Records written by the first SaveStyle STYLE_BINARY emission loop
(lines 1220-1232): for each property slot i of the DEFAULT control, the
record (controlId 0, propertyId i, GuiGetStyle(0,i)) is written iff
styleBackup[i] differs from GuiGetStyle(0, i). -/
def defaultChangedRecords (s : RgsState) : List (Nat × Nat × Nat) :=
  (List.range propsTotal).filterMap fun i =>
    if s.styleBackup i ≠ s.guiGetStyle 0 i then
      some (0, i, s.guiGetStyle 0 i)
    else none

/-- Inner loop body of the second SaveStyle STYLE_BINARY emission loop
(lines 1237-1249): records of one non-DEFAULT control i, over property j,
written iff the value differs from styleBackup[i*propsTotal+j] and from
GuiGetStyle(0, j). -/
def controlRowRecords (s : RgsState) (i : Nat) : List (Nat × Nat × Nat) :=
  (List.range propsTotal).filterMap fun j =>
    if s.styleBackup (i * propsTotal + j) ≠ s.guiGetStyle i j ∧
        s.guiGetStyle i j ≠ s.guiGetStyle 0 j then
      some (i, j, s.guiGetStyle i j)
    else none

/-- Records written by the second SaveStyle STYLE_BINARY emission loop
(lines 1234-1250): the rows of controls 1 to RAYGUI_MAX_CONTROLS-1 in
order. -/
def controlChangedRecords (s : RgsState) : List (Nat × Nat × Nat) :=
  ((List.range' 1 (RAYGUI_MAX_CONTROLS - 1)).map (controlRowRecords s)).flatten

/-- Full ordered record sequence written by SaveStyle STYLE_BINARY
(lines 1220-1250): DEFAULT records first, then the per-control records. -/
def saveStyleBinaryRecords (s : RgsState) : List (Nat × Nat × Nat) :=
  defaultChangedRecords s ++ controlChangedRecords s

/-- StyleChangesCounter (lines 1747-1764): counts the DEFAULT properties that
differ from the baseline, plus, for every non-DEFAULT control, the properties
that differ from the baseline and from the current DEFAULT value. -/
def styleChangesCounter (s : RgsState) : Nat :=
  ((List.range propsTotal).countP fun i =>
    decide (s.styleBackup i ≠ s.guiGetStyle 0 i)) +
  (((List.range' 1 (RAYGUI_MAX_CONTROLS - 1)).map fun i =>
    (List.range propsTotal).countP fun j =>
      decide (s.styleBackup (i * propsTotal + j) ≠ s.guiGetStyle i j ∧
        s.guiGetStyle i j ≠ s.guiGetStyle 0 j)).sum)

/-- Little-endian bytes of a 2-byte field (fwrite of a C short on the
little-endian host platform, cf. spec section 4.3 numeric encoding). -/
def u16le (v : Nat) : List Nat := [v % 256, v / 256 % 256]

/-- Little-endian bytes of a 4-byte field (fwrite of a C int). -/
def u32le (v : Nat) : List Nat :=
  [v % 256, v / 256 % 256, v / 65536 % 256, v / 16777216 % 256]

/-- Byte encoding of one property record: controlId (2 bytes), propertyId
(2 bytes), propertyValue (4 bytes) (lines 1228-1230 and 1245-1247). -/
def encodeRecord (r : Nat × Nat × Nat) : List Nat :=
  u16le r.1 ++ u16le r.2.1 ++ u32le r.2.2

/-- The 4 signature bytes "rGS " (line 1204, `char signature[5] = "rGS "`,
of which 4 bytes are written). -/
def rgsSignature : List Nat := [114, 71, 83, 32]

/-- Byte stream written by SaveStyle for format STYLE_BINARY on a
successfully opened file (lines 1204-1322): signature, version 200,
reserved 0, the count returned by StyleChangesCounter, the record bytes of
the two emission loops, then the font block.  When `customFontLoaded` is
false only the 4-byte font data size 0 is written (line 1320, `else fwrite
(&fontSize, ...)` with fontSize = 0).  When a custom font is loaded the
emitted font block depends on external raylib collaborators
(LoadImageFromTexture, CompressData dealing with IEEE floats and DEFLATE), so
it is passed in as `fontData`. -/
def saveStyleBinaryBytes (s : RgsState) (fontData : List Nat) : List Nat :=
  rgsSignature ++ u16le 200 ++ u16le 0 ++ u32le (styleChangesCounter s) ++
  ((saveStyleBinaryRecords s).map encodeRecord).flatten ++
  (if s.customFontLoaded then fontData else u32le 0)

/-- Content of a file produced by SaveStyle: a binary .rgs byte stream or a
text .rgs character stream. -/
inductive StyleFileOut where
  | binaryOut (bytes : List Nat) : StyleFileOut
  | textOut (content : String) : StyleFileOut
deriving DecidableEq

/-- Decimal rendering of a C int with format %02i for nonnegative values:
at least two digits, zero padded (used for control and property indices). -/
def dec2 (n : Nat) : String :=
  if n < 10 then "0" ++ Nat.repr n else Nat.repr n

/-- Hexadecimal digit characters, lowercase, as produced by printf %x. -/
def hexDigitChars : List Char := "0123456789abcdef".data

/-- Hexadecimal digit of a value modulo 16. -/
def hexDigit (n : Nat) : Char := hexDigitChars.getD (n % 16) '0'

/-- Most-significant-first hexadecimal digits, `k` nibbles wide (the value is
taken modulo 16^k, matching the cast of the C argument to its field width). -/
def hexPad : Nat → Nat → List Char
  | 0, _ => []
  | k + 1, v => hexPad k (v / 16) ++ [hexDigit v]

/-- Format %02x of a byte value. -/
def hex2 (v : Nat) : String := String.mk (hexPad 2 v)

/-- Format %08x of a 32-bit value. -/
def hex8 (v : Nat) : String := String.mk (hexPad 8 v)

/-- Symbolic property name used by the SaveStyle STYLE_TEXT data lines
(lines 1351 and 1364): the base property name from guiPropsText when
j < RAYGUI_MAX_PROPS_BASE, else the synthesized label
TextFormat("EXT%02i", j - RAYGUI_MAX_PROPS_BASE). -/
def textPropName (j : Nat) : String :=
  if j < RAYGUI_MAX_PROPS_BASE then guiPropsText.getD j ""
  else "EXT" ++ dec2 (j - RAYGUI_MAX_PROPS_BASE)

/-- Data line written by the SaveStyle STYLE_TEXT DEFAULT loop (line 1351):
format "p 00 %02i 0x%08x    DEFAULT_%s \n". -/
def textDefaultLine (s : RgsState) (j : Nat) : String :=
  "p 00 " ++ dec2 j ++ " 0x" ++ hex8 (s.guiGetStyle 0 j) ++
  "    DEFAULT_" ++ textPropName j ++ " \n"

/-- Data line written by the SaveStyle STYLE_TEXT control loop (line 1364):
format "p %02i %02i 0x%08x    %s_%s \n". -/
def textControlLine (s : RgsState) (i j : Nat) : String :=
  "p " ++ dec2 i ++ " " ++ dec2 j ++ " 0x" ++ hex8 (s.guiGetStyle i j) ++
  "    " ++ guiControlText.getD i "" ++ "_" ++ textPropName j ++ " \n"

/-- Lines written by the SaveStyle STYLE_TEXT DEFAULT loop
(lines 1346-1353). -/
def saveStyleTextDefaultLines (s : RgsState) : List String :=
  (List.range propsTotal).filterMap fun j =>
    if s.styleBackup j ≠ s.guiGetStyle 0 j then
      some (textDefaultLine s j)
    else none

/-- Lines written for one control by the SaveStyle STYLE_TEXT control loop
(lines 1358-1366). -/
def saveStyleTextRowLines (s : RgsState) (i : Nat) : List String :=
  (List.range propsTotal).filterMap fun j =>
    if s.styleBackup (i * propsTotal + j) ≠ s.guiGetStyle i j ∧
        s.guiGetStyle i j ≠ s.guiGetStyle 0 j then
      some (textControlLine s i j)
    else none

/-- Data lines of SaveStyle STYLE_TEXT (lines 1345-1367): the DEFAULT loop
then the control loop, with the same change conditions as the binary
emission loops. -/
def saveStyleTextDataLines (s : RgsState) : List String :=
  saveStyleTextDefaultLines s ++
  ((List.range' 1 (RAYGUI_MAX_CONTROLS - 1)).map (saveStyleTextRowLines s)).flatten

/-- Header written by SaveStyle STYLE_TEXT before the data lines
(lines 1336-1343): comment lines, and when a custom font is loaded a warning
comment plus the "f" font line. -/
def saveStyleTextHeader (s : RgsState) : String :=
  "#\n# rgs style text file (v3.5) - raygui style file generated using rGuiStyler\n#\n" ++
  "# Info:  p <controlId> <propertyId> <propertyValue>  // Property description\n#\n" ++
  (if s.customFontLoaded then
    "# WARNING: This style uses a custom font, must be provided with style file\n" ++
    "f " ++ Nat.repr (s.guiGetStyle 0 TEXT_SIZE) ++ " " ++
    Nat.repr (s.guiGetStyle 0 TEXT_SPACING) ++ " " ++ s.fontFileName ++ "\n"
  else "")

/-- Full character stream written by SaveStyle for format STYLE_TEXT on a
successfully opened file (lines 1329-1371). -/
def saveStyleTextContent (s : RgsState) : String :=
  saveStyleTextHeader s ++ String.join (saveStyleTextDataLines s)

/-- SaveStyle (lines 1142-1375).  `openOk` models whether fopen succeeds for
the requested file.  The function opens a file only under the STYLE_BINARY
and STYLE_TEXT branches (the two ifs of the source are mutually exclusive
since a C int cannot equal both 0 and 3, so they are rendered as a chained
if).  It returns the `success` flag, the file content written (none when no
file was opened or writing never started), and the state, which no path of
the source mutates: SaveStyle contains no store to styleBackup and no
GuiSetStyle call. -/
def saveStyle (s : RgsState) (fontData : List Nat) (openOk : Bool)
    (format : Nat) : Bool × Option StyleFileOut × RgsState :=
  if format = STYLE_BINARY then
    if openOk then
      (true, some (StyleFileOut.binaryOut (saveStyleBinaryBytes s fontData)), s)
    else (false, none, s)
  else if format = STYLE_TEXT then
    if openOk then
      (true, some (StyleFileOut.textOut (saveStyleTextContent s)), s)
    else (false, none, s)
  else (false, none, s)

/-- Uniform shape of a SaveStyle STYLE_TEXT data line as the spec states it:
"p <controlIndex:2-digit> <propertyIndex:2-digit> 0x<value:8-hex>"
followed by the control display name joined to the property symbolic name. -/
def stylePropLineText : Nat × Nat × Nat → String
  | (c, p, v) =>
    "p " ++ dec2 c ++ " " ++ dec2 p ++ " 0x" ++ hex8 v ++ "    " ++
    guiControlText.getD c "" ++ "_" ++ textPropName p ++ " \n"

/-- Symbolic property name used by the ExportStyleAsCode property comments:
the base table for j < RAYGUI_MAX_PROPS_BASE; beyond it, the DEFAULT row
(lines 1422-1423) reads guiPropsExText while the control rows (lines
1434-1435) synthesize TextFormat("EXTENDED%02i", j - RAYGUI_MAX_PROPS_BASE
+ 1). -/
def codePropName (c p : Nat) : String :=
  if p < RAYGUI_MAX_PROPS_BASE then guiPropsText.getD p ""
  else if c = 0 then guiPropsExText.getD (p - RAYGUI_MAX_PROPS_BASE) ""
  else "EXTENDED" ++ dec2 (p - RAYGUI_MAX_PROPS_BASE + 1)

/-- Uniform shape of an ExportStyleAsCode property array line:
"    { <control>, <property>, 0x<value:8-hex> },    // <symbolic name>". -/
def stylePropLineCode : Nat × Nat × Nat → String
  | (c, p, v) =>
    "    \x7b " ++ Nat.repr c ++ ", " ++ Nat.repr p ++ ", 0x" ++ hex8 v ++
    " \x7d,    // " ++ guiControlText.getD c "" ++ "_" ++ codePropName c p ++
    " \n"

/-- Property array line written by the ExportStyleAsCode DEFAULT loop
(lines 1418-1425): format "    { 0, %i, 0x%08x },    // DEFAULT_%s \n" with
the name from guiPropsText or guiPropsExText. -/
def codeDefaultLine (s : RgsState) (i : Nat) : String :=
  "    \x7b 0, " ++ Nat.repr i ++ ", 0x" ++ hex8 (s.guiGetStyle 0 i) ++
  " \x7d,    // DEFAULT_" ++
  (if i < RAYGUI_MAX_PROPS_BASE then guiPropsText.getD i ""
   else guiPropsExText.getD (i - RAYGUI_MAX_PROPS_BASE) "") ++ " \n"

/-- Property array line written by the ExportStyleAsCode control loop
(lines 1428-1438): format "    { %i, %i, 0x%08x },    // %s_%s \n" with the
name from guiPropsText or the synthesized EXTENDED label. -/
def codeControlLine (s : RgsState) (i j : Nat) : String :=
  "    \x7b " ++ Nat.repr i ++ ", " ++ Nat.repr j ++ ", 0x" ++
  hex8 (s.guiGetStyle i j) ++ " \x7d,    // " ++ guiControlText.getD i "" ++
  "_" ++
  (if j < RAYGUI_MAX_PROPS_BASE then guiPropsText.getD j ""
   else "EXTENDED" ++ dec2 (j - RAYGUI_MAX_PROPS_BASE + 1)) ++ " \n"

/-- Lines written by the ExportStyleAsCode DEFAULT loop (lines 1418-1425),
same change condition as the binary DEFAULT emission loop. -/
def exportCodeDefaultLines (s : RgsState) : List String :=
  (List.range propsTotal).filterMap fun i =>
    if s.styleBackup i ≠ s.guiGetStyle 0 i then
      some (codeDefaultLine s i)
    else none

/-- Lines written for one control by the ExportStyleAsCode control loop
(lines 1430-1437), same change condition as the binary control emission
loop. -/
def exportCodeRowLines (s : RgsState) (i : Nat) : List String :=
  (List.range propsTotal).filterMap fun j =>
    if s.styleBackup (i * propsTotal + j) ≠ s.guiGetStyle i j ∧
        s.guiGetStyle i j ≠ s.guiGetStyle 0 j then
      some (codeControlLine s i j)
    else none

/-- Property array lines of ExportStyleAsCode (lines 1417-1438): the DEFAULT
loop then the control loops in control order. -/
def exportCodePropLines (s : RgsState) : List String :=
  exportCodeDefaultLines s ++
  ((List.range' 1 (RAYGUI_MAX_CONTROLS - 1)).map (exportCodeRowLines s)).flatten

/-- Strict output order of the Change-Set: ascending control index, and
ascending property index within a control. -/
def recLt (a b : Nat × Nat × Nat) : Prop :=
  a.1 < b.1 ∨ (a.1 = b.1 ∧ a.2.1 < b.2.1)

/-- Concrete state for the sibling scenario of C1: LABEL (control 1) and
BUTTON (control 2) both hold TEXT_COLOR_NORMAL (property 2) = 0x11223344
while the baseline and the DEFAULT value are 0. -/
def scenarioSiblingState : RgsState where
  guiGetStyle := fun i j =>
    if (i = 1 ∨ i = 2) ∧ j = 2 then 0x11223344 else 0
  styleBackup := fun _ => 0
  customFontLoaded := false
  fontFileName := ""

/-- Copy of the sibling scenario state that differs only in the font file
name, an input the diff never reads. -/
def scenarioSiblingStateB : RgsState :=
  { scenarioSiblingState with fontFileName := "other.ttf" }

/-- BYTES_TEXT_PER_LINE (rguistyler.c line 1458). -/
def BYTES_TEXT_PER_LINE : Nat := 20

/-- Output of the compressed font atlas data loop of ExportStyleAsCode, one
string per fprintf call (lines 1477-1478): entries at index i with
i % BYTES_TEXT_PER_LINE == 0 use format "0x%02x,\n    " (a newline after
the entry), the others "0x%02x, ", and the final entry is printed as
"0x%02x \x7d;\n\n". -/
def exportFontDataChunks (compData : List Nat) : List String :=
  ((List.range (compData.length - 1)).map fun i =>
    if i % BYTES_TEXT_PER_LINE = 0 then
      "0x" ++ hex2 (compData.getD i 0) ++ ",\n    "
    else
      "0x" ++ hex2 (compData.getD i 0) ++ ", ") ++
  ["0x" ++ hex2 (compData.getD (compData.length - 1) 0) ++ " \x7d;\n\n"]

/-- Compressed font atlas byte-array text of ExportStyleAsCode
(lines 1476-1478): the declaration prefix (whose two names come from the
user style name and the external raylib helper TextToUpper) followed by the
data chunks. -/
def exportFontDataText (styleName styleNameUpper : String)
    (compData : List Nat) : String :=
  "static unsigned char " ++ styleName ++ "FontData[" ++ styleNameUpper ++
  "_COMPRESSED_DATA_SIZE] = \x7b " ++
  String.join (exportFontDataChunks compData)

/-- Split a character stream at newline characters. -/
def splitOnNewline : List Char → List (List Char)
  | [] => [[]]
  | c :: rest =>
    match splitOnNewline rest with
    | [] => [[c]]
    | l :: ls => if c = '\n' then [] :: l :: ls else (c :: l) :: ls

/-- Number of hexadecimal byte literals on a line, counted as occurrences of
the two-character prefix "0x". -/
def countOx : List Char → Nat
  | [] => 0
  | c :: rest =>
    (if c = '0' ∧ rest.head? = some 'x' then 1 else 0) + countOx rest

/-- Byte literals on each source line of the emitted font data array. -/
def fontDataLineCounts (styleName styleNameUpper : String)
    (compData : List Nat) : List Nat :=
  (splitOnNewline
    (exportFontDataText styleName styleNameUpper compData).data).map countOx

/-- Entries per emitted source line, grouped from the chunk stream: each
chunk carries exactly one byte literal, and a chunk containing a newline
ends the current line. -/
def lineSizesAux : List Bool → Nat → List Nat
  | [], acc => if acc = 0 then [] else [acc]
  | b :: rest, acc =>
    if b then (acc + 1) :: lineSizesAux rest 0
    else lineSizesAux rest (acc + 1)

/-- Byte literals per source line of the font data array, from the chunk
stream. -/
def chunkLineSizes (chunks : List String) : List Nat :=
  lineSizesAux (chunks.map fun c => c.data.contains '\n') 0

/-- Sizes of the groups of byte entries that the emission loop places after
the first line: BYTES_TEXT_PER_LINE per full line, the remainder last. -/
def groupSizes : Nat → List Nat
  | 0 => []
  | m + 1 =>
    if m + 1 ≤ BYTES_TEXT_PER_LINE then [m + 1]
    else BYTES_TEXT_PER_LINE :: groupSizes (m + 1 - BYTES_TEXT_PER_LINE)
termination_by m => m
decreasing_by
  simp_wf
  have h20 : BYTES_TEXT_PER_LINE = 20 := rfl
  omega

/-- Concrete state for the C5 scenario: the baseline is the constant table
0xFFFFFFFF, and the store agrees with it everywhere except that
DEFAULT.BASE_COLOR_NORMAL (property index 1) now holds 0x202020FF.  No
custom font is loaded. -/
def scenarioC5State : RgsState where
  guiGetStyle := fun i j =>
    if i = 0 ∧ j = 1 then 0x202020FF else 0xFFFFFFFF
  styleBackup := fun _ => 0xFFFFFFFF
  customFontLoaded := false
  fontFileName := ""

/-- The claim C5: with only DEFAULT.BASE_COLOR_NORMAL changed from baseline
0xFFFFFFFF to 0x202020FF and no custom font loaded, the computed Change-Set
is exactly the single entry (0, 1, 0x202020FF), and the binary output of
SaveStyle is the header "rGS ", version 200, reserved 0, count 1, followed by
the single 8-byte record (controlId 0, propertyId 1, value 0x202020FF
little-endian) and the 4-byte font size 0. -/
theorem c5_single_default_change :
    saveStyleBinaryRecords scenarioC5State = [(0, 1, 0x202020FF)] ∧
    styleChangesCounter scenarioC5State = 1 ∧
    saveStyleBinaryBytes scenarioC5State [] =
      [114, 71, 83, 32, 200, 0, 0, 0, 1, 0, 0, 0,
       0, 0, 1, 0, 0xFF, 0x20, 0x20, 0x20, 0, 0, 0, 0] := by
  refine ⟨by decide, by decide, by decide⟩

/-- The claim C6: when the output file cannot be opened (openOk = false),
SaveStyle returns false and writes no file, and on every path SaveStyle
leaves the style store and the baseline snapshot styleBackup unmodified, so
a failed save is retryable. -/
theorem c6_save_failure_no_mutation (s : RgsState) (fontData : List Nat)
    (format : Nat) :
    saveStyle s fontData false format = (false, none, s) ∧
    ∀ openOk : Bool, (saveStyle s fontData openOk format).2.2 = s := by
  unfold saveStyle
  constructor
  · split <;> simp
  · intro openOk
    split
    · split <;> simp
    · split
      · split <;> simp
      · simp

/-- The claim C10: calling SaveStyle with any format other than STYLE_BINARY
and STYLE_TEXT (in particular STYLE_AS_CODE or STYLE_TABLE_IMAGE) opens no
file, writes nothing and returns false, whatever the state and whether the
path would be writable. -/
theorem c10_savestyle_rejects_other_formats (s : RgsState)
    (fontData : List Nat) (openOk : Bool) (format : Nat)
    (hb : format ≠ STYLE_BINARY) (ht : format ≠ STYLE_TEXT) :
    saveStyle s fontData openOk format = (false, none, s) := by
  unfold saveStyle
  rw [if_neg hb, if_neg ht]

/-- Witness for C10 at the concrete formats STYLE_AS_CODE and
STYLE_TABLE_IMAGE on a concrete state. -/
theorem c10_witness :
    saveStyle scenarioC5State [] true STYLE_AS_CODE =
      (false, none, scenarioC5State) ∧
    saveStyle scenarioC5State [] true STYLE_TABLE_IMAGE =
      (false, none, scenarioC5State) :=
  ⟨c10_savestyle_rejects_other_formats scenarioC5State [] true STYLE_AS_CODE
      (by decide) (by decide),
   c10_savestyle_rejects_other_formats scenarioC5State [] true
      STYLE_TABLE_IMAGE (by decide) (by decide)⟩

/-- Length of a guarded filterMap is the count of indices passing the guard:
links the record emission loops to the counting loops of
StyleChangesCounter. -/
theorem length_filterMap_ite {α β : Type} (P : α → Prop) [DecidablePred P]
    (g : α → β) (l : List α) :
    (l.filterMap fun a => if P a then some (g a) else none).length =
      l.countP fun a => decide (P a) := by
  induction l with
  | nil => rfl
  | cons a t ih =>
    by_cases h : P a <;>
      simp [List.filterMap_cons, List.countP_cons, h, ih]

/-- StyleChangesCounter returns exactly the number of records the two
SaveStyle emission loops produce: its two counting loops run over the same
index ranges with the same change conditions. -/
theorem styleChangesCounter_eq_length (s : RgsState) :
    styleChangesCounter s = (saveStyleBinaryRecords s).length := by
  unfold styleChangesCounter saveStyleBinaryRecords defaultChangedRecords
    controlChangedRecords controlRowRecords
  rw [List.length_append, List.length_flatten, List.map_map]
  have h1 := length_filterMap_ite
    (fun i => s.styleBackup i ≠ s.guiGetStyle 0 i)
    (fun i => ((0 : Nat), i, s.guiGetStyle 0 i)) (List.range propsTotal)
  rw [h1]
  have h2 : List.map
      (List.length ∘ fun i =>
        (List.range propsTotal).filterMap fun j =>
          if s.styleBackup (i * propsTotal + j) ≠ s.guiGetStyle i j ∧
              s.guiGetStyle i j ≠ s.guiGetStyle 0 j then
            some (i, j, s.guiGetStyle i j)
          else none)
      (List.range' 1 (RAYGUI_MAX_CONTROLS - 1)) =
      List.map
      (fun i =>
        (List.range propsTotal).countP fun j =>
          decide (s.styleBackup (i * propsTotal + j) ≠ s.guiGetStyle i j ∧
            s.guiGetStyle i j ≠ s.guiGetStyle 0 j))
      (List.range' 1 (RAYGUI_MAX_CONTROLS - 1)) := by
    apply List.map_congr_left
    intro i _
    simp only [Function.comp_apply]
    exact length_filterMap_ite _ _ _
  rw [h2]

/-- The claim C3: a binary file written by SaveStyle(fileName, STYLE_BINARY)
is the 4 signature bytes "rGS ", the 2-byte version 200, 2 reserved zero
bytes, the 4-byte count N, then the property records; N is the
StyleChangesCounter value and equals exactly the number of records emitted by
the two loops, each record being 8 bytes wide. -/
theorem c3_binary_layout_and_count (s : RgsState) (fontData : List Nat) :
    saveStyleBinaryBytes s fontData =
      rgsSignature ++ u16le 200 ++ u16le 0 ++
        u32le ((saveStyleBinaryRecords s).length) ++
        ((saveStyleBinaryRecords s).map encodeRecord).flatten ++
        (if s.customFontLoaded then fontData else u32le 0) ∧
    styleChangesCounter s = (saveStyleBinaryRecords s).length ∧
    ∀ r ∈ saveStyleBinaryRecords s, (encodeRecord r).length = 8 := by
  refine ⟨?_, styleChangesCounter_eq_length s, ?_⟩
  · unfold saveStyleBinaryBytes
    rw [styleChangesCounter_eq_length]
  · intro r _
    simp [encodeRecord, u16le, u32le]

/-- The claim C4: when no custom font is loaded, SaveStyle STYLE_BINARY
writes, immediately after the property records, the single 4-byte zero of
the font-data-size field, and the file ends there, whatever font bytes a
loaded font would have contributed. -/
theorem c4_no_font_trailing_zero (s : RgsState) (fontData : List Nat)
    (h : s.customFontLoaded = false) :
    saveStyleBinaryBytes s fontData =
      rgsSignature ++ u16le 200 ++ u16le 0 ++
        u32le (styleChangesCounter s) ++
        ((saveStyleBinaryRecords s).map encodeRecord).flatten ++
        [0, 0, 0, 0] := by
  unfold saveStyleBinaryBytes
  rw [h]
  rfl

/-- Witness for C4: the no-font hypothesis discharged on the concrete C5
scenario state, with nonempty would-be font bytes that do not appear. -/
theorem c4_witness :
    saveStyleBinaryBytes scenarioC5State [7, 7, 7] =
      rgsSignature ++ u16le 200 ++ u16le 0 ++
        u32le (styleChangesCounter scenarioC5State) ++
        ((saveStyleBinaryRecords scenarioC5State).map encodeRecord).flatten ++
        [0, 0, 0, 0] :=
  c4_no_font_trailing_zero scenarioC5State [7, 7, 7] rfl

/-- Membership characterization of the DEFAULT-loop records: exactly the
triples (0, j, current value) for property slots j whose current DEFAULT
value differs from the baseline. -/
theorem mem_defaultChangedRecords (s : RgsState) (a b c : Nat) :
    (a, b, c) ∈ defaultChangedRecords s ↔
      (a = 0 ∧ b < propsTotal ∧ c = s.guiGetStyle 0 b ∧
       s.styleBackup b ≠ s.guiGetStyle 0 b) := by
  unfold defaultChangedRecords
  rw [List.mem_filterMap]
  constructor
  · rintro ⟨j, hj, hjr⟩
    rw [List.mem_range] at hj
    split at hjr
    case isTrue hcond =>
      obtain ⟨rfl, rfl, rfl⟩ : 0 = a ∧ j = b ∧ s.guiGetStyle 0 j = c := by
        injection hjr with h
        exact ⟨congrArg Prod.fst h, congrArg Prod.fst (congrArg Prod.snd h),
          congrArg Prod.snd (congrArg Prod.snd h)⟩
      exact ⟨rfl, hj, rfl, hcond⟩
    case isFalse => exact absurd hjr (by simp)
  · rintro ⟨rfl, hb, rfl, hch⟩
    exact ⟨b, List.mem_range.mpr hb, by rw [if_pos hch]⟩

/-- Membership characterization of the control-loop records: exactly the
triples (i, j, current value) for 1 <= i < RAYGUI_MAX_CONTROLS and
j < propsTotal whose current value differs both from the baseline slot
i*propsTotal+j and from the current DEFAULT value of property j. -/
theorem mem_controlChangedRecords (s : RgsState) (a b c : Nat) :
    (a, b, c) ∈ controlChangedRecords s ↔
      (1 ≤ a ∧ a < RAYGUI_MAX_CONTROLS ∧ b < propsTotal ∧
       c = s.guiGetStyle a b ∧
       s.styleBackup (a * propsTotal + b) ≠ s.guiGetStyle a b ∧
       s.guiGetStyle a b ≠ s.guiGetStyle 0 b) := by
  unfold controlChangedRecords controlRowRecords
  rw [List.mem_flatten]
  constructor
  · rintro ⟨l, hl, hrl⟩
    rw [List.mem_map] at hl
    obtain ⟨i, hi, rfl⟩ := hl
    rw [List.mem_filterMap] at hrl
    obtain ⟨j, hj, hjr⟩ := hrl
    rw [List.mem_range'] at hi
    rw [List.mem_range] at hj
    obtain ⟨k, hk, rfl⟩ := hi
    split at hjr
    case isTrue hcond =>
      obtain ⟨rfl, rfl, rfl⟩ :
          1 + 1 * k = a ∧ j = b ∧ s.guiGetStyle (1 + 1 * k) j = c := by
        injection hjr with h
        exact ⟨congrArg Prod.fst h, congrArg Prod.fst (congrArg Prod.snd h),
          congrArg Prod.snd (congrArg Prod.snd h)⟩
      refine ⟨by omega, ?_, hj, rfl, hcond.1, hcond.2⟩
      have h16 : RAYGUI_MAX_CONTROLS = 16 := rfl
      omega
    case isFalse => exact absurd hjr (by simp)
  · rintro ⟨ha1, ha2, hb, rfl, hch1, hch2⟩
    refine ⟨(List.range propsTotal).filterMap fun j =>
        if s.styleBackup (a * propsTotal + j) ≠ s.guiGetStyle a j ∧
            s.guiGetStyle a j ≠ s.guiGetStyle 0 j then
          some (a, j, s.guiGetStyle a j)
        else none, ?_, ?_⟩
    · rw [List.mem_map]
      refine ⟨a, ?_, rfl⟩
      rw [List.mem_range']
      have h16 : RAYGUI_MAX_CONTROLS = 16 := rfl
      exact ⟨a - 1, by omega, by omega⟩
    · rw [List.mem_filterMap]
      exact ⟨b, List.mem_range.mpr hb, by rw [if_pos ⟨hch1, hch2⟩]⟩

/-- The claim C1: for every non-DEFAULT control i and property index j, the
entry (i, j, current value) appears in the emitted Change-Set iff the
current value differs from the baseline slot styleBackup[i*propsTotal+j]
and from the current DEFAULT value GuiGetStyle(0, j); moreover no entry for
(i, j) can carry any value other than the current one, so a pair equal to
the current DEFAULT value is never emitted, while sibling controls holding
the same non-default value are each emitted on their own test. -/
theorem c1_change_set_membership (s : RgsState) (i j : Nat)
    (h1 : 1 ≤ i) (h2 : i < RAYGUI_MAX_CONTROLS) (h3 : j < propsTotal) :
    ((i, j, s.guiGetStyle i j) ∈ saveStyleBinaryRecords s ↔
      (s.styleBackup (i * propsTotal + j) ≠ s.guiGetStyle i j ∧
       s.guiGetStyle i j ≠ s.guiGetStyle 0 j)) ∧
    ∀ v, (i, j, v) ∈ saveStyleBinaryRecords s → v = s.guiGetStyle i j := by
  constructor
  · rw [saveStyleBinaryRecords, List.mem_append]
    constructor
    · rintro (hdef | hctl)
      · exact absurd ((mem_defaultChangedRecords s i j _).mp hdef).1 (by omega)
      · obtain ⟨_, _, _, _, hc1, hc2⟩ :=
          (mem_controlChangedRecords s i j _).mp hctl
        exact ⟨hc1, hc2⟩
    · rintro ⟨hc1, hc2⟩
      exact Or.inr ((mem_controlChangedRecords s i j _).mpr
        ⟨h1, h2, h3, rfl, hc1, hc2⟩)
  · intro v hv
    rw [saveStyleBinaryRecords, List.mem_append] at hv
    rcases hv with hdef | hctl
    · exact absurd ((mem_defaultChangedRecords s i j v).mp hdef).1 (by omega)
    · exact ((mem_controlChangedRecords s i j v).mp hctl).2.2.2.1

/-- Witness for C1: on the sibling scenario both the LABEL and the BUTTON
entry for TEXT_COLOR_NORMAL are in the Change-Set. -/
theorem c1_witness :
    (1, 2, scenarioSiblingState.guiGetStyle 1 2) ∈
      saveStyleBinaryRecords scenarioSiblingState ∧
    (2, 2, scenarioSiblingState.guiGetStyle 2 2) ∈
      saveStyleBinaryRecords scenarioSiblingState :=
  ⟨((c1_change_set_membership scenarioSiblingState 1 2 (by decide) (by decide)
      (by decide)).1).mpr ⟨by decide, by decide⟩,
   ((c1_change_set_membership scenarioSiblingState 2 2 (by decide) (by decide)
      (by decide)).1).mpr ⟨by decide, by decide⟩⟩

/-- The text codec DEFAULT line (format string "p 00 %02i 0x%08x    DEFAULT_%s")
is the uniform data-line shape instantiated at control 0. -/
theorem textDefaultLine_eq (s : RgsState) (j : Nat) :
    textDefaultLine s j = stylePropLineText (0, j, s.guiGetStyle 0 j) := by
  unfold textDefaultLine stylePropLineText
  apply String.ext
  simp only [String.data_append, List.append_assoc]
  have h1 : ("p 00 " : String).data = ['p', ' ', '0', '0', ' '] := rfl
  have h2 : ("p " : String).data = ['p', ' '] := rfl
  have h3 : (dec2 0).data = ['0', '0'] := rfl
  have h4 : (" " : String).data = [' '] := rfl
  have h5 : ("    DEFAULT_" : String).data =
      [' ', ' ', ' ', ' ', 'D', 'E', 'F', 'A', 'U', 'L', 'T', '_'] := rfl
  have h6 : ("    " : String).data = [' ', ' ', ' ', ' '] := rfl
  have h7 : (guiControlText.getD 0 "").data =
      ['D', 'E', 'F', 'A', 'U', 'L', 'T'] := rfl
  have h8 : ("_" : String).data = ['_'] := rfl
  simp only [h1, h2, h3, h4, h5, h6, h7, h8, List.cons_append,
    List.nil_append, List.append_assoc]

/-- The text codec control line is the uniform data-line shape. -/
theorem textControlLine_eq (s : RgsState) (i j : Nat) :
    textControlLine s i j = stylePropLineText (i, j, s.guiGetStyle i j) := rfl

/-- The code exporter DEFAULT line is the uniform code-line shape
instantiated at control 0. -/
theorem codeDefaultLine_eq (s : RgsState) (i : Nat) :
    codeDefaultLine s i = stylePropLineCode (0, i, s.guiGetStyle 0 i) := by
  have hn : codePropName 0 i =
      (if i < RAYGUI_MAX_PROPS_BASE then guiPropsText.getD i ""
       else guiPropsExText.getD (i - RAYGUI_MAX_PROPS_BASE) "") := by
    simp [codePropName]
  show codeDefaultLine s i =
    "    \x7b " ++ Nat.repr 0 ++ ", " ++ Nat.repr i ++ ", 0x" ++
      hex8 (s.guiGetStyle 0 i) ++ " \x7d,    // " ++
      guiControlText.getD 0 "" ++ "_" ++ codePropName 0 i ++ " \n"
  rw [hn]
  unfold codeDefaultLine
  apply String.ext
  simp only [String.data_append, List.append_assoc]
  have h1 : ("    \x7b 0, " : String).data =
      [' ', ' ', ' ', ' ', '\x7b', ' ', '0', ',', ' '] := rfl
  have h2 : ("    \x7b " : String).data =
      [' ', ' ', ' ', ' ', '\x7b', ' '] := rfl
  have h3 : (Nat.repr 0).data = ['0'] := rfl
  have h4 : (", " : String).data = [',', ' '] := rfl
  have h5 : (" \x7d,    // DEFAULT_" : String).data =
      [' ', '\x7d', ',', ' ', ' ', ' ', ' ', '/', '/', ' ',
       'D', 'E', 'F', 'A', 'U', 'L', 'T', '_'] := rfl
  have h6 : (" \x7d,    // " : String).data =
      [' ', '\x7d', ',', ' ', ' ', ' ', ' ', '/', '/', ' '] := rfl
  have h7 : (guiControlText.getD 0 "").data =
      ['D', 'E', 'F', 'A', 'U', 'L', 'T'] := rfl
  have h8 : ("_" : String).data = ['_'] := rfl
  simp only [h1, h2, h3, h4, h5, h6, h7, h8, List.cons_append,
    List.nil_append, List.append_assoc]

/-- The code exporter control line is the uniform code-line shape for any
non-DEFAULT control. -/
theorem codeControlLine_eq (s : RgsState) (i j : Nat) (h : i ≠ 0) :
    codeControlLine s i j = stylePropLineCode (i, j, s.guiGetStyle i j) := by
  have hn : codePropName i j =
      (if j < RAYGUI_MAX_PROPS_BASE then guiPropsText.getD j ""
       else "EXTENDED" ++ dec2 (j - RAYGUI_MAX_PROPS_BASE + 1)) := by
    simp [codePropName, h]
  show codeControlLine s i j =
    "    \x7b " ++ Nat.repr i ++ ", " ++ Nat.repr j ++ ", 0x" ++
      hex8 (s.guiGetStyle i j) ++ " \x7d,    // " ++
      guiControlText.getD i "" ++ "_" ++ codePropName i j ++ " \n"
  rw [hn]
  rfl

/-- The DEFAULT loop of the text codec emits the formatted DEFAULT
records. -/
theorem saveStyleTextDefaultLines_eq (s : RgsState) :
    saveStyleTextDefaultLines s =
      (defaultChangedRecords s).map stylePropLineText := by
  unfold saveStyleTextDefaultLines defaultChangedRecords
  rw [List.map_filterMap]
  apply List.filterMap_congr
  intro j hj
  rw [Option.map_if, textDefaultLine_eq]

/-- The control loop of the text codec emits the formatted records of each
control row. -/
theorem saveStyleTextRowLines_eq (s : RgsState) (i : Nat) :
    saveStyleTextRowLines s i =
      (controlRowRecords s i).map stylePropLineText := by
  unfold saveStyleTextRowLines controlRowRecords
  rw [List.map_filterMap]
  apply List.filterMap_congr
  intro j hj
  rw [Option.map_if, textControlLine_eq]

/-- The text codec data lines are exactly the binary record sequence mapped
through the uniform line format. -/
theorem saveStyleTextDataLines_eq (s : RgsState) :
    saveStyleTextDataLines s =
      (saveStyleBinaryRecords s).map stylePropLineText := by
  unfold saveStyleTextDataLines saveStyleBinaryRecords controlChangedRecords
  rw [List.map_append, ← saveStyleTextDefaultLines_eq]
  refine congrArg (saveStyleTextDefaultLines s ++ ·) ?_
  rw [List.map_flatten, List.map_map]
  refine congrArg List.flatten (List.map_congr_left ?_)
  intro i hi
  simp only [Function.comp_apply]
  exact saveStyleTextRowLines_eq s i

/-- The DEFAULT loop of the code exporter emits the formatted DEFAULT
records. -/
theorem exportCodeDefaultLines_eq (s : RgsState) :
    exportCodeDefaultLines s =
      (defaultChangedRecords s).map stylePropLineCode := by
  unfold exportCodeDefaultLines defaultChangedRecords
  rw [List.map_filterMap]
  apply List.filterMap_congr
  intro j hj
  rw [Option.map_if, codeDefaultLine_eq]

/-- The control loop of the code exporter emits the formatted records of
each control row. -/
theorem exportCodeRowLines_eq (s : RgsState) (i : Nat) (h : i ≠ 0) :
    exportCodeRowLines s i =
      (controlRowRecords s i).map stylePropLineCode := by
  unfold exportCodeRowLines controlRowRecords
  rw [List.map_filterMap]
  apply List.filterMap_congr
  intro j hj
  rw [Option.map_if, codeControlLine_eq s i j h]

/-- The code exporter property array lines are exactly the binary record
sequence mapped through the uniform code line format. -/
theorem exportCodePropLines_eq (s : RgsState) :
    exportCodePropLines s =
      (saveStyleBinaryRecords s).map stylePropLineCode := by
  unfold exportCodePropLines saveStyleBinaryRecords controlChangedRecords
  rw [List.map_append, ← exportCodeDefaultLines_eq]
  refine congrArg (exportCodeDefaultLines s ++ ·) ?_
  rw [List.map_flatten, List.map_map]
  refine congrArg List.flatten (List.map_congr_left ?_)
  intro i hi
  rw [List.mem_range'] at hi
  obtain ⟨k, hk, rfl⟩ := hi
  simp only [Function.comp_apply]
  exact exportCodeRowLines_eq s (1 + 1 * k) (by omega)

/-- The DEFAULT records are strictly increasing in property index. -/
theorem defaultChangedRecords_pairwise (s : RgsState) :
    (defaultChangedRecords s).Pairwise recLt := by
  unfold defaultChangedRecords
  rw [List.pairwise_filterMap]
  refine List.Pairwise.imp ?_ (List.pairwise_lt_range propsTotal)
  intro a b hab x hx y hy
  by_cases ha : s.styleBackup a ≠ s.guiGetStyle 0 a
  · rw [if_pos ha] at hx
    by_cases hb : s.styleBackup b ≠ s.guiGetStyle 0 b
    · rw [if_pos hb] at hy
      rw [Option.mem_def] at hx hy
      obtain rfl := (Option.some.inj hx).symm
      obtain rfl := (Option.some.inj hy).symm
      exact Or.inr ⟨rfl, hab⟩
    · rw [if_neg hb] at hy
      exact absurd hy (by simp)
  · rw [if_neg ha] at hx
    exact absurd hx (by simp)

/-- The records of one control row are strictly increasing in property
index. -/
theorem controlRowRecords_pairwise (s : RgsState) (i : Nat) :
    (controlRowRecords s i).Pairwise recLt := by
  unfold controlRowRecords
  rw [List.pairwise_filterMap]
  refine List.Pairwise.imp ?_ (List.pairwise_lt_range propsTotal)
  intro a b hab x hx y hy
  by_cases ha : s.styleBackup (i * propsTotal + a) ≠ s.guiGetStyle i a ∧
      s.guiGetStyle i a ≠ s.guiGetStyle 0 a
  · rw [if_pos ha] at hx
    by_cases hb : s.styleBackup (i * propsTotal + b) ≠ s.guiGetStyle i b ∧
        s.guiGetStyle i b ≠ s.guiGetStyle 0 b
    · rw [if_pos hb] at hy
      rw [Option.mem_def] at hx hy
      obtain rfl := (Option.some.inj hx).symm
      obtain rfl := (Option.some.inj hy).symm
      exact Or.inr ⟨rfl, hab⟩
    · rw [if_neg hb] at hy
      exact absurd hy (by simp)
  · rw [if_neg ha] at hx
    exact absurd hx (by simp)

/-- Every record of a control row carries that control index. -/
theorem mem_controlRowRecords_fst (s : RgsState) (i : Nat) :
    ∀ r ∈ controlRowRecords s i, r.1 = i := by
  intro r hr
  unfold controlRowRecords at hr
  rw [List.mem_filterMap] at hr
  obtain ⟨j, _, hj⟩ := hr
  split at hj
  case isTrue =>
    obtain rfl := Option.some.inj hj
    rfl
  case isFalse => exact absurd hj (by simp)

/-- The control records are strictly increasing in (control, property)
order. -/
theorem controlChangedRecords_pairwise (s : RgsState) :
    (controlChangedRecords s).Pairwise recLt := by
  unfold controlChangedRecords
  rw [List.pairwise_flatten]
  constructor
  · intro l hl
    rw [List.mem_map] at hl
    obtain ⟨i, _, rfl⟩ := hl
    exact controlRowRecords_pairwise s i
  · rw [List.pairwise_map]
    refine List.Pairwise.imp ?_
      (List.pairwise_lt_range' 1 (RAYGUI_MAX_CONTROLS - 1))
    intro i₁ i₂ h x hx y hy
    have h1 := mem_controlRowRecords_fst s i₁ x hx
    have h2 := mem_controlRowRecords_fst s i₂ y hy
    exact Or.inl (by omega)

/-- The full record sequence is strictly increasing in (control, property)
order: DEFAULT first, then controls ascending, properties ascending within
each control. -/
theorem saveStyleBinaryRecords_pairwise (s : RgsState) :
    (saveStyleBinaryRecords s).Pairwise recLt := by
  unfold saveStyleBinaryRecords
  rw [List.pairwise_append]
  refine ⟨defaultChangedRecords_pairwise s, controlChangedRecords_pairwise s,
    ?_⟩
  rintro ⟨a, b, c⟩ hx ⟨d, e, f⟩ hy
  have h0 := ((mem_defaultChangedRecords s a b c).mp hx).1
  have h1 := ((mem_controlChangedRecords s d e f).mp hy).1
  exact Or.inl (show a < d by omega)

/-- The claim C2: the binary SaveStyle records, the text SaveStyle data
lines and the ExportStyleAsCode property array lines all emit the same
entries in exactly the same fixed order (the text and code outputs are the
record sequence mapped through their line formats), and that order is:
changed DEFAULT properties in ascending property index over the full
base+extended range, then controls 1 to RAYGUI_MAX_CONTROLS-1 in ascending
control index with ascending property index within each control. -/
theorem c2_uniform_emission_order (s : RgsState) :
    saveStyleTextDataLines s =
      (saveStyleBinaryRecords s).map stylePropLineText ∧
    exportCodePropLines s =
      (saveStyleBinaryRecords s).map stylePropLineCode ∧
    saveStyleBinaryRecords s =
      defaultChangedRecords s ++ controlChangedRecords s ∧
    (∀ r ∈ defaultChangedRecords s, r.1 = 0 ∧ r.2.1 < propsTotal) ∧
    (∀ r ∈ controlChangedRecords s,
      1 ≤ r.1 ∧ r.1 < RAYGUI_MAX_CONTROLS ∧ r.2.1 < propsTotal) ∧
    (saveStyleBinaryRecords s).Pairwise recLt := by
  refine ⟨saveStyleTextDataLines_eq s, exportCodePropLines_eq s, rfl, ?_, ?_,
    saveStyleBinaryRecords_pairwise s⟩
  · rintro ⟨a, b, c⟩ hr
    have h := (mem_defaultChangedRecords s a b c).mp hr
    exact ⟨h.1, h.2.1⟩
  · rintro ⟨a, b, c⟩ hr
    have h := (mem_controlChangedRecords s a b c).mp hr
    exact ⟨h.1, h.2.1, h.2.2.1⟩

/-- Witness for C2: the text/code emissions on the sibling scenario, and the
record bounds discharged on its concrete BUTTON record. -/
theorem c2_witness :
    saveStyleTextDataLines scenarioSiblingState =
      (saveStyleBinaryRecords scenarioSiblingState).map stylePropLineText ∧
    (1 ≤ ((2 : Nat), (2 : Nat), (0x11223344 : Nat)).1 ∧
     ((2 : Nat), (2 : Nat), (0x11223344 : Nat)).1 < RAYGUI_MAX_CONTROLS ∧
     ((2 : Nat), (2 : Nat), (0x11223344 : Nat)).2.1 < propsTotal) :=
  ⟨(c2_uniform_emission_order scenarioSiblingState).1,
   (c2_uniform_emission_order scenarioSiblingState).2.2.2.2.1
     (2, 2, 0x11223344) (by decide)⟩

/-- Witness for C3: the count agreement on the C5 scenario state, and the
8-byte record width discharged on its concrete record. -/
theorem c3_witness :
    styleChangesCounter scenarioC5State =
      (saveStyleBinaryRecords scenarioC5State).length ∧
    (encodeRecord (0, 1, 0x202020FF)).length = 8 :=
  ⟨(c3_binary_layout_and_count scenarioC5State []).2.1,
   (c3_binary_layout_and_count scenarioC5State []).2.2 (0, 1, 0x202020FF)
     (by decide)⟩

/-- The claim C7: the STYLE_TEXT output is the comment header (with the font
warning block when a custom font is loaded) followed by exactly one line per
Change-Set entry, and each such line has the uniform form
"p <control:2-digit> <property:2-digit> 0x<value:8-hex>    <name>" where the
name is the control display name joined to the base property display name
for property indices below RAYGUI_MAX_PROPS_BASE and to the synthesized
EXT<nn> label (nn = index - RAYGUI_MAX_PROPS_BASE, two digits) otherwise. -/
theorem c7_text_line_format (s : RgsState) :
    saveStyleTextContent s =
      saveStyleTextHeader s ++
        String.join ((saveStyleBinaryRecords s).map stylePropLineText) ∧
    ∀ r ∈ saveStyleBinaryRecords s,
      stylePropLineText r =
        "p " ++ dec2 r.1 ++ " " ++ dec2 r.2.1 ++ " 0x" ++ hex8 r.2.2 ++
        "    " ++ guiControlText.getD r.1 "" ++ "_" ++
        (if r.2.1 < RAYGUI_MAX_PROPS_BASE then guiPropsText.getD r.2.1 ""
         else "EXT" ++ dec2 (r.2.1 - RAYGUI_MAX_PROPS_BASE)) ++ " \n" := by
  constructor
  · unfold saveStyleTextContent
    rw [saveStyleTextDataLines_eq]
  · rintro ⟨a, b, c⟩ _
    rfl

/-- Witness for C7: the line format instantiated on the LABEL record of the
sibling scenario, membership discharged by evaluation. -/
theorem c7_witness :
    stylePropLineText (1, 2, scenarioSiblingState.guiGetStyle 1 2) =
      "p " ++ dec2 1 ++ " " ++ dec2 2 ++ " 0x" ++
      hex8 (scenarioSiblingState.guiGetStyle 1 2) ++ "    " ++
      guiControlText.getD 1 "" ++ "_" ++
      (if 2 < RAYGUI_MAX_PROPS_BASE then guiPropsText.getD 2 ""
       else "EXT" ++ dec2 (2 - RAYGUI_MAX_PROPS_BASE)) ++ " \n" :=
  (c7_text_line_format scenarioSiblingState).2
    (1, 2, scenarioSiblingState.guiGetStyle 1 2) (by decide)

/-- The DEFAULT emission loop reads only store and baseline cells inside the
table window, so it is determined by them. -/
theorem defaultChangedRecords_congr {s₁ s₂ : RgsState}
    (hget : ∀ i < RAYGUI_MAX_CONTROLS, ∀ j < propsTotal,
      s₁.guiGetStyle i j = s₂.guiGetStyle i j)
    (hbak : ∀ k < RAYGUI_MAX_CONTROLS * propsTotal,
      s₁.styleBackup k = s₂.styleBackup k) :
    defaultChangedRecords s₁ = defaultChangedRecords s₂ := by
  unfold defaultChangedRecords
  apply List.filterMap_congr
  intro j hj
  rw [List.mem_range] at hj
  have hc : RAYGUI_MAX_CONTROLS = 16 := rfl
  have hp : propsTotal = 24 := rfl
  have hm : RAYGUI_MAX_CONTROLS * propsTotal = 384 := rfl
  rw [hbak j (by omega), hget 0 (by omega) j hj]

/-- One control row of the emission loop reads only store and baseline cells
inside the table window, so it is determined by them. -/
theorem controlRowRecords_congr {s₁ s₂ : RgsState} (i : Nat)
    (hi1 : 1 ≤ i) (hi2 : i < RAYGUI_MAX_CONTROLS)
    (hget : ∀ i < RAYGUI_MAX_CONTROLS, ∀ j < propsTotal,
      s₁.guiGetStyle i j = s₂.guiGetStyle i j)
    (hbak : ∀ k < RAYGUI_MAX_CONTROLS * propsTotal,
      s₁.styleBackup k = s₂.styleBackup k) :
    controlRowRecords s₁ i = controlRowRecords s₂ i := by
  unfold controlRowRecords
  apply List.filterMap_congr
  intro j hj
  rw [List.mem_range] at hj
  have hc : RAYGUI_MAX_CONTROLS = 16 := rfl
  have hp : propsTotal = 24 := rfl
  have hb : i * propsTotal + j < RAYGUI_MAX_CONTROLS * propsTotal := by
    rw [hc, hp]
    rw [hp] at hj
    rw [hc] at hi2
    omega
  rw [hbak _ hb, hget i hi2 j hj, hget 0 (by omega) j hj]

/-- The control emission loops read only store and baseline cells inside the
table window, so they are determined by them. -/
theorem controlChangedRecords_congr {s₁ s₂ : RgsState}
    (hget : ∀ i < RAYGUI_MAX_CONTROLS, ∀ j < propsTotal,
      s₁.guiGetStyle i j = s₂.guiGetStyle i j)
    (hbak : ∀ k < RAYGUI_MAX_CONTROLS * propsTotal,
      s₁.styleBackup k = s₂.styleBackup k) :
    controlChangedRecords s₁ = controlChangedRecords s₂ := by
  unfold controlChangedRecords
  refine congrArg List.flatten (List.map_congr_left ?_)
  intro i hi
  rw [List.mem_range'] at hi
  obtain ⟨k, hk, rfl⟩ := hi
  have hc : RAYGUI_MAX_CONTROLS = 16 := rfl
  exact controlRowRecords_congr (1 + 1 * k) (by omega) (by omega) hget hbak

/-- The claim C9: the Change-Set computation is a pure function of the store
contents and the baseline snapshot: two states that agree on every store
cell and every baseline slot of the style table yield the same
StyleChangesCounter value and the identical ordered record sequence, so
computing the Change-Set twice with no mutation in between yields identical
results. -/
theorem c9_diff_deterministic (s₁ s₂ : RgsState)
    (hget : ∀ i < RAYGUI_MAX_CONTROLS, ∀ j < propsTotal,
      s₁.guiGetStyle i j = s₂.guiGetStyle i j)
    (hbak : ∀ k < RAYGUI_MAX_CONTROLS * propsTotal,
      s₁.styleBackup k = s₂.styleBackup k) :
    styleChangesCounter s₁ = styleChangesCounter s₂ ∧
    saveStyleBinaryRecords s₁ = saveStyleBinaryRecords s₂ := by
  have hrec : saveStyleBinaryRecords s₁ = saveStyleBinaryRecords s₂ := by
    unfold saveStyleBinaryRecords
    rw [defaultChangedRecords_congr hget hbak,
      controlChangedRecords_congr hget hbak]
  exact ⟨by rw [styleChangesCounter_eq_length, styleChangesCounter_eq_length,
    hrec], hrec⟩

/-- Witness for C9: two states sharing store and baseline (differing only in
the font file name, which the diff never reads) produce the same count and
the same record sequence. -/
theorem c9_witness :
    styleChangesCounter scenarioSiblingState =
      styleChangesCounter scenarioSiblingStateB ∧
    saveStyleBinaryRecords scenarioSiblingState =
      saveStyleBinaryRecords scenarioSiblingStateB :=
  c9_diff_deterministic scenarioSiblingState scenarioSiblingStateB
    (fun _ _ _ _ => rfl) (fun _ _ => rfl)

/-- Hexadecimal digit characters are never a newline. -/
theorem hexDigit_ne_newline (n : Nat) : hexDigit n ≠ '\n' := by
  unfold hexDigit
  have h : n % 16 < 16 := Nat.mod_lt _ (by omega)
  revert h
  generalize n % 16 = k
  intro h
  interval_cases k <;> decide

/-- The two characters of a %02x byte rendering. -/
theorem hex2_data (v : Nat) :
    (hex2 v).data = [hexDigit (v / 16), hexDigit v] := rfl

/-- List containment distributes over append. -/
theorem contains_append_char (a b : List Char) (c : Char) :
    (a ++ b).contains c = (a.contains c || b.contains c) := by
  induction a with
  | nil => simp
  | cons x t ih =>
    simp only [List.cons_append, List.contains_cons, ih, Bool.or_assoc]

/-- Which chunks of the font data emission contain the newline that ends a
source line: exactly the entries at indices that are multiples of
BYTES_TEXT_PER_LINE, and the final entry. -/
theorem exportFontDataChunks_flags (compData : List Nat) :
    (exportFontDataChunks compData).map (fun c => c.data.contains '\n') =
      ((List.range (compData.length - 1)).map fun i =>
        decide (i % BYTES_TEXT_PER_LINE = 0)) ++ [true] := by
  unfold exportFontDataChunks
  rw [List.map_append, List.map_map]
  refine congrArg₂ (· ++ ·) ?_ ?_
  · apply List.map_congr_left
    intro i _
    simp only [Function.comp_apply]
    by_cases h : i % BYTES_TEXT_PER_LINE = 0
    · have hd : decide (i % BYTES_TEXT_PER_LINE = 0) = true := by simp [h]
      rw [if_pos h, hd]
      rw [String.data_append, String.data_append, contains_append_char,
        contains_append_char]
      have hnl : ((",\n    " : String).data.contains '\n') = true := rfl
      rw [hnl]
      simp
    · have hd : decide (i % BYTES_TEXT_PER_LINE = 0) = false := by simp [h]
      rw [if_neg h, hd]
      rw [String.data_append, String.data_append, contains_append_char,
        contains_append_char]
      have h1 : (("0x" : String).data.contains '\n') = false := rfl
      have h2 : ((", " : String).data.contains '\n') = false := rfl
      have ha := hexDigit_ne_newline (compData.getD i 0 / 16)
      have hb := hexDigit_ne_newline (compData.getD i 0)
      have h3 : ((hex2 (compData.getD i 0)).data.contains '\n') = false := by
        rw [hex2_data]
        simp only [List.contains_cons, List.contains_nil]
        rw [beq_eq_false_iff_ne.mpr (Ne.symm ha),
          beq_eq_false_iff_ne.mpr (Ne.symm hb)]
        rfl
      rw [h1, h2, h3]
      rfl
  · simp only [List.map_cons, List.map_nil]
    have hfin : (("0x" ++ hex2 (compData.getD (compData.length - 1) 0) ++
        " \x7d;\n\n").data.contains '\n') = true := by
      rw [String.data_append, String.data_append, contains_append_char,
        contains_append_char]
      have hnl : ((" \x7d;\n\n" : String).data.contains '\n') = true := rfl
      rw [hnl]
      simp
    rw [hfin]

/-- Grouping skips a run of line-continuing chunks by accumulating. -/
theorem lineSizesAux_replicate_false (k : Nat) (rest : List Bool)
    (acc : Nat) :
    lineSizesAux (List.replicate k false ++ rest) acc =
      lineSizesAux rest (acc + k) := by
  induction k generalizing acc with
  | zero => simp
  | succ n ih =>
    rw [List.replicate_succ, List.cons_append]
    rw [show lineSizesAux (false :: (List.replicate n false ++ rest)) acc =
      lineSizesAux (List.replicate n false ++ rest) (acc + 1) from rfl]
    rw [ih]
    have h : acc + 1 + n = acc + (n + 1) := by omega
    rw [h]

/-- Line grouping of the emission flag pattern starting just after a line
break: BYTES_TEXT_PER_LINE entries per full line, the remainder on the last
line. -/
theorem lineSizesAux_range'_flags (m : Nat) :
    ∀ s, s % 20 = 1 →
    lineSizesAux (((List.range' s m).map fun i =>
        decide (i % BYTES_TEXT_PER_LINE = 0)) ++ [true]) 0 =
      groupSizes (m + 1) := by
  induction m using Nat.strong_induction_on with
  | _ m ih =>
    intro s hs
    have h20 : BYTES_TEXT_PER_LINE = 20 := rfl
    by_cases hm : m ≤ 19
    · have hrep : ((List.range' s m).map fun i =>
          decide (i % BYTES_TEXT_PER_LINE = 0)) =
          List.replicate m false := by
        rw [List.eq_replicate_iff]
        refine ⟨by rw [List.length_map, List.length_range'], ?_⟩
        intro b hb
        rw [List.mem_map] at hb
        obtain ⟨i, hi, rfl⟩ := hb
        rw [List.mem_range'] at hi
        obtain ⟨t, ht, rfl⟩ := hi
        have hne : ¬ (s + 1 * t) % BYTES_TEXT_PER_LINE = 0 := by
          rw [h20]
          omega
        exact decide_eq_false hne
      have hg : groupSizes (m + 1) = [m + 1] := by
        simp only [groupSizes]
        rw [if_pos (by omega)]
      rw [hrep, lineSizesAux_replicate_false, hg]
      simp [lineSizesAux]
    · have hsplit : List.range' s m =
          List.range' s 19 ++ List.range' (s + 19) (m - 19) := by
        have h := List.range'_append s 19 (m - 19) 1
        simp only [Nat.one_mul] at h
        rw [show m - 19 + 19 = m from by omega] at h
        exact h.symm
      have htail : List.range' (s + 19) (m - 19) =
          (s + 19) :: List.range' (s + 20) (m - 20) := by
        rw [show m - 19 = (m - 20) + 1 from by omega, List.range'_succ]
      rw [hsplit, htail, List.map_append, List.map_cons]
      have hrep : ((List.range' s 19).map fun i =>
          decide (i % BYTES_TEXT_PER_LINE = 0)) =
          List.replicate 19 false := by
        rw [List.eq_replicate_iff]
        refine ⟨by rw [List.length_map, List.length_range'], ?_⟩
        intro b hb
        rw [List.mem_map] at hb
        obtain ⟨i, hi, rfl⟩ := hb
        rw [List.mem_range'] at hi
        obtain ⟨t, ht, rfl⟩ := hi
        have hne : ¬ (s + 1 * t) % BYTES_TEXT_PER_LINE = 0 := by
          rw [h20]
          omega
        exact decide_eq_false hne
      have hbrk : decide ((s + 19) % BYTES_TEXT_PER_LINE = 0) = true := by
        simp only [h20, decide_eq_true_eq]
        omega
      rw [hrep, hbrk, List.append_assoc, List.cons_append,
        lineSizesAux_replicate_false]
      simp only [lineSizesAux, if_true]
      rw [ih (m - 20) (by omega) (s + 20) (by omega)]
      have hg : groupSizes (m + 1) =
          BYTES_TEXT_PER_LINE ::
            groupSizes (m + 1 - BYTES_TEXT_PER_LINE) := by
        simp only [groupSizes]
        rw [if_neg (by omega)]
      rw [hg, h20]
      rw [show m + 1 - 20 = m - 20 + 1 from by omega]

/-- Every group holds between 1 and BYTES_TEXT_PER_LINE entries. -/
theorem groupSizes_bounds (m : Nat) :
    ∀ c ∈ groupSizes m, 1 ≤ c ∧ c ≤ BYTES_TEXT_PER_LINE := by
  induction m using Nat.strong_induction_on with
  | _ m ih =>
    rcases m with _ | m'
    · intro c hc
      simp [groupSizes] at hc
    · intro c hc
      have h20 : BYTES_TEXT_PER_LINE = 20 := rfl
      by_cases hle : m' + 1 ≤ BYTES_TEXT_PER_LINE
      · rw [show groupSizes (m' + 1) = [m' + 1] from by
          simp only [groupSizes]; rw [if_pos hle]] at hc
        rw [List.mem_singleton] at hc
        subst hc
        exact ⟨by omega, hle⟩
      · rw [show groupSizes (m' + 1) = BYTES_TEXT_PER_LINE ::
            groupSizes (m' + 1 - BYTES_TEXT_PER_LINE) from by
          simp only [groupSizes]; rw [if_neg hle]] at hc
        rcases List.mem_cons.mp hc with rfl | hmem
        · exact ⟨by omega, Nat.le_refl _⟩
        · exact ih (m' + 1 - BYTES_TEXT_PER_LINE) (by omega) c hmem

/-- Sanity computation on a concrete 3-byte array: the string-level line
counts of the emitted text and the chunk-level line sizes agree on the data
lines; the declaration line carries 1 literal and the closing line 2. -/
theorem fontDataLineCounts_example :
    fontDataLineCounts "Style" "STYLE" [17, 34, 51] = [1, 2, 0, 0] ∧
    chunkLineSizes (exportFontDataChunks [17, 34, 51]) = [1, 2] := by
  exact ⟨rfl, rfl⟩

/-- Counterexample to C8 as stated: for the compressed data [17, 34, 51]
(size 3 > 0) the emitted byte-array text has a source line holding 1 byte
literal and one holding 2, so the number of byte entries per source line is
not fixed at 20. -/
theorem c8_counterexample :
    ¬ ∀ c ∈ fontDataLineCounts "Style" "STYLE" [17, 34, 51],
        c = 0 ∨ c = BYTES_TEXT_PER_LINE := by
  decide

/-- The claim C8 as amended: the compressed font-atlas byte array is emitted
as 0x-form hexadecimal literals with a newline after every entry whose
zero-based index is a multiple of BYTES_TEXT_PER_LINE (20), so for every
nonzero data size the declaration line carries exactly one byte literal and
the following lines carry BYTES_TEXT_PER_LINE each except a shorter final
group; no source line ever carries more than BYTES_TEXT_PER_LINE byte
entries. -/
theorem c8_amended_line_grouping (compData : List Nat)
    (h : compData ≠ []) :
    chunkLineSizes (exportFontDataChunks compData) =
      1 :: groupSizes (compData.length - 1) ∧
    ∀ c ∈ chunkLineSizes (exportFontDataChunks compData),
      1 ≤ c ∧ c ≤ BYTES_TEXT_PER_LINE := by
  have hlen : 0 < compData.length := List.length_pos.mpr h
  have hmain : chunkLineSizes (exportFontDataChunks compData) =
      1 :: groupSizes (compData.length - 1) := by
    unfold chunkLineSizes
    rw [exportFontDataChunks_flags]
    rcases hn : compData.length - 1 with _ | m
    · simp [lineSizesAux, groupSizes]
    · rw [List.range_eq_range']
      rw [show List.range' 0 (m + 1) = 0 :: List.range' 1 m from
        List.range'_succ 0 m 1]
      rw [List.map_cons]
      have h0 : decide ((0 : Nat) % BYTES_TEXT_PER_LINE = 0) = true := rfl
      rw [h0, List.cons_append]
      rw [show ∀ xs, lineSizesAux (true :: xs) 0 = 1 :: lineSizesAux xs 0
        from fun xs => rfl]
      rw [lineSizesAux_range'_flags m 1 rfl]
  refine ⟨hmain, ?_⟩
  rw [hmain]
  intro c hc
  rcases List.mem_cons.mp hc with rfl | hmem
  · exact ⟨Nat.le_refl 1, by
      have h20 : BYTES_TEXT_PER_LINE = 20 := rfl
      omega⟩
  · exact groupSizes_bounds _ c hmem

/-- Witness for the amended C8 at the concrete 3-byte array. -/
theorem c8_witness :
    chunkLineSizes (exportFontDataChunks [17, 34, 51]) =
      1 :: groupSizes (([17, 34, 51] : List Nat).length - 1) ∧
    ∀ c ∈ chunkLineSizes (exportFontDataChunks [17, 34, 51]),
      1 ≤ c ∧ c ≤ BYTES_TEXT_PER_LINE :=
  c8_amended_line_grouping [17, 34, 51] (by decide)

end RGuiStyler
